import Mathlib

/-!
Shallow embedding of the gapsounds Vector-to-Composition Engine.

The repository contains two revisions of the same engine:
  * `src/musicEngine.ts`          — embedded below as namespace `LocalEngine`
  * `src/services/musicEngine.ts` — embedded below as namespace `ServicesEngine`

JavaScript `number` arithmetic is idealised as real arithmetic (ℝ);
`Float32Array` values become `List ℝ`.  Side-effecting audio calls
(`releaseAll`, `triggerAttackRelease`) are modelled as an explicit action
trace plus a per-voice, per-instrument count of currently-sounding notes.
-/

namespace GapSounds

/-- The composition phases, from `export type CompositionPhase` in both files. -/
inductive CompositionPhase
  | start
  | traversal
  | «end»
  | idle
deriving DecidableEq, Repr

/-- The four fixed voice roles (keys of `VOICE_CONFIGS` / the `voices` array). -/
inductive Voice
  | bass
  | tenor
  | alto
  | soprano
deriving DecidableEq, Repr

/-- A voice's two possible sound sources: the `Tone.Sampler` or the
`Tone.PolySynth` fallback. -/
inductive Instrument
  | sampler
  | fallback
deriving DecidableEq, Repr

/-- One element of the array built by `getVoiceMelody`.  `gate` is the
proposition produced by the JS comparison. -/
structure NoteEvent where
  noteIndex : ℕ
  octaveShift : ℤ
  gate : Prop
  velocity : ℝ

instance : Inhabited NoteEvent := ⟨⟨0, 0, False, 0⟩⟩

/-- `const scale = ['C', 'D', 'Eb', 'F', 'G', 'Ab', 'Bb']` (identical in both
files, both inside `getVoiceMelody` and inside the loop callback). -/
def scale : List String := ["C", "D", "Eb", "F", "G", "Ab", "Bb"]

/-- `Float32Array.prototype.slice(a, b)`: the elements with indices in
`[a, b)`. -/
def jsSlice (xs : List ℝ) (a b : ℕ) : List ℝ := (xs.drop a).take (b - a)

/-- `let sumSqr = 0; for (const v of vector) sumSqr += v * v;`
(identical in both `play` implementations). -/
def sumSqr (vector : List ℝ) : ℝ := vector.foldl (fun acc v => acc + v * v) 0

/-- `Math.sqrt(sumSqr)` — the Euclidean magnitude of the vector. -/
noncomputable def magnitude (vector : List ℝ) : ℝ := Real.sqrt (sumSqr vector)

/-- The BPM derivation shared verbatim by both `play` implementations:
`Tone.Transport.bpm.value = Math.min(160, Math.max(50, 60 + (Math.sqrt(sumSqr) * 250)))`. -/
noncomputable def deriveTempo (vector : List ℝ) : ℝ :=
  min 160 (max 50 (60 + magnitude vector * 250))

/-- `const voices = ['bass', 'tenor', 'alto', 'soprano']` in the loop
callbacks. -/
def voicesList : List Voice := [.bass, .tenor, .alto, .soprano]

/-- `const baseOctaves = [1, 2, 3, 4]` in the loop callbacks. -/
def baseOctaves : List ℤ := [1, 2, 3, 4]

/-- A call made on a voice's instrument during a loop tick or `stop()`:
either `releaseAll` or `triggerAttackRelease(note, dur, time, vel)`. -/
inductive AudioAction
  | releaseAll (v : Voice) (inst : Instrument)
  | trigger (v : Voice) (inst : Instrument) (note : String) (dur : String) (vel : ℝ)

/-- How many notes are currently sounding on each (voice, instrument). -/
def SoundState := Voice → Instrument → ℕ

/-- Effect of one audio call on the sounding-note counts: `releaseAll`
silences that instrument, `triggerAttackRelease` starts one more note. -/
def applyAction (snd : SoundState) : AudioAction → SoundState
  | .releaseAll v inst => fun v' i' => if v' = v ∧ i' = inst then 0 else snd v' i'
  | .trigger v inst _ _ _ => fun v' i' => if v' = v ∧ i' = inst then snd v' i' + 1 else snd v' i'

/-- Run a list of audio calls left to right. -/
def runActions (snd : SoundState) (acts : List AudioAction) : SoundState :=
  acts.foldl applyAction snd

/-- The mutable fields of the `MusicEngine` class (identical field set in both
revisions).  `samplersCreated` records whether `load()` has populated the
`samplers` map; `loadedStates[v]` is the per-voice readiness flag;
`loopActive` records whether `this.loop` is non-null. -/
structure EngineState where
  samplersCreated : Bool
  loadedStates : Voice → Bool
  isInitialized : Bool
  currentMelodies : List (List NoteEvent)
  currentPhase : CompositionPhase
  callbackRegistered : Bool
  loopActive : Bool
  bpm : ℝ

/-- The engine state right after the constructor runs: no samplers, nothing
loaded, phase `idle`, no loop. -/
def initialState : EngineState where
  samplersCreated := false
  loadedStates := fun _ => false
  isInitialized := false
  currentMelodies := []
  currentPhase := .idle
  callbackRegistered := false
  loopActive := false
  bpm := 120

/-- `load()` in both revisions: creates the four samplers, awaits all four
loads, each of which resolves on success *and* on error, recording the
outcome in `loadedStates`.  `outcomes v` is whether voice `v`'s sample
fetch succeeded.  The promise never rejects: in the model, `load` is a
total function. -/
def load (s : EngineState) (outcomes : Voice → Bool) : EngineState :=
  { s with isInitialized := true, samplersCreated := true, loadedStates := outcomes }

namespace LocalEngine

/-- `getVoiceMelody` from `src/musicEngine.ts` (gate base threshold 0.5). -/
noncomputable def getVoiceMelody (vectorSlice : List ℝ) (voiceIdx : ℕ)
    (stepCount : ℕ) : List NoteEvent :=
  (List.range stepCount).map fun i =>
    let val := vectorSlice.getD (i % vectorSlice.length) 0
    let amplified := Real.tanh (val * 15)
    { noteIndex := (⌊amplified * 14⌋).natAbs % scale.length
      octaveShift := ⌊amplified * 2⌋
      gate := |val * 25| > 0.5 + (voiceIdx : ℝ) * 0.1
      velocity := min 1 (max 0.25 (0.5 + val * 5)) }

/-- `const durations = ["4n", "4n", "8n", "16n"]` in `src/musicEngine.ts`. -/
def durations : List String := ["4n", "4n", "8n", "16n"]

open Classical in
/-- The body of the `voices.forEach((v, i) => ...)` callback in the
`Tone.Loop` of `src/musicEngine.ts`, as the list of audio calls it makes for
voice `v` at position `i` on tick number `step`.  Routing condition
`sampler && this.loadedStates[v]`; the sampler path and the synth path each
call `releaseAll(time)` before `triggerAttackRelease`; synth velocity is
attenuated by 0.5; always-sound pulse every 16th step. -/
noncomputable def tickVoiceActions (s : EngineState) (step : ℕ) (i : ℕ)
    (v : Voice) : List AudioAction :=
  let melody := s.currentMelodies.getD i []
  let noteData := melody.getD (step % melody.length) default
  if noteData.gate ∨ step % 16 = 0 then
    let finalNote := scale.getD (noteData.noteIndex % scale.length) ""
      ++ toString (baseOctaves.getD i 0 + noteData.octaveShift)
    if s.samplersCreated ∧ s.loadedStates v then
      [.releaseAll v .sampler,
       .trigger v .sampler finalNote (durations.getD i "") noteData.velocity]
    else
      [.releaseAll v .fallback,
       .trigger v .fallback finalNote (durations.getD i "") (noteData.velocity * 0.5)]
  else []

/-- One full tick of the `Tone.Loop` callback: the four voices in order. -/
noncomputable def tickActions (s : EngineState) (step : ℕ) : List AudioAction :=
  tickVoiceActions s step 0 .bass ++ tickVoiceActions s step 1 .tenor
    ++ tickVoiceActions s step 2 .alto ++ tickVoiceActions s step 3 .soprano

/-- Effect of one tick on the sounding-note counts. -/
noncomputable def tick (s : EngineState) (snd : SoundState) (step : ℕ) : SoundState :=
  runActions snd (tickActions s step)

/-- `stop()` from `src/musicEngine.ts`: stops and cancels the transport,
calls `releaseAll` on every sampler in the map (populated only once `load`
has run) and on every fallback synth, disposes the loop, sets the phase to
`idle` and notifies the observer if one is registered.  Returns the new
engine state, the new sounding-note counts, and the emitted notifications. -/
def stop (s : EngineState) (snd : SoundState) :
    EngineState × SoundState × List CompositionPhase :=
  ( { s with loopActive := false, currentPhase := .idle },
    fun v inst =>
      match inst with
      | .fallback => 0
      | .sampler => if s.samplersCreated then 0 else snd v .sampler,
    if s.callbackRegistered then [.idle] else [] )

/-- `play(vector, phase)` from `src/musicEngine.ts`: internal `stop()`,
phase assignment and notification, melody generation over the four
96-element quadrants, BPM derivation, then loop creation and transport
start.  Returns the state, sounding counts, and notification trace. -/
noncomputable def play (s : EngineState) (snd : SoundState) (vector : List ℝ)
    (phase : CompositionPhase) :
    EngineState × SoundState × List CompositionPhase :=
  let stopped := stop s snd
  let s1 := stopped.1
  ( { s1 with
      currentPhase := phase
      currentMelodies :=
        [ getVoiceMelody (jsSlice vector 0 96) 0 16,
          getVoiceMelody (jsSlice vector 96 192) 1 16,
          getVoiceMelody (jsSlice vector 192 288) 2 16,
          getVoiceMelody (jsSlice vector 288 384) 3 16 ]
      bpm := deriveTempo vector
      loopActive := true },
    stopped.2.1,
    stopped.2.2 ++ (if s.callbackRegistered then [phase] else []) )

end LocalEngine

namespace ServicesEngine

/-- `getVoiceMelody` from `src/services/musicEngine.ts` (gate base threshold
0.4; identical otherwise). -/
noncomputable def getVoiceMelody (vectorSlice : List ℝ) (voiceIdx : ℕ)
    (stepCount : ℕ) : List NoteEvent :=
  (List.range stepCount).map fun i =>
    let val := vectorSlice.getD (i % vectorSlice.length) 0
    let amplified := Real.tanh (val * 15)
    { noteIndex := (⌊amplified * 14⌋).natAbs % scale.length
      octaveShift := ⌊amplified * 2⌋
      gate := |val * 25| > 0.4 + (voiceIdx : ℝ) * 0.1
      velocity := min 1 (max 0.25 (0.5 + val * 5)) }

/-- `const durations = ["2n", "4n", "8n", "16n"]` in
`src/services/musicEngine.ts`. -/
def durations : List String := ["2n", "4n", "8n", "16n"]

open Classical in
/-- The body of the `voices.forEach((v, i) => ...)` callback in the
`Tone.Loop` of `src/services/musicEngine.ts`.  Routing condition
`sampler && sampler.loaded` (the buffer-loaded flag, set exactly when
`loadedStates[v]` was set); NO `releaseAll` before triggering; synth
velocity attenuated by 0.4; always-sound pulse every 4th step. -/
noncomputable def tickVoiceActions (s : EngineState) (step : ℕ) (i : ℕ)
    (v : Voice) : List AudioAction :=
  let melody := s.currentMelodies.getD i []
  let noteData := melody.getD (step % melody.length) default
  if noteData.gate ∨ step % 4 = 0 then
    let finalNote := scale.getD (noteData.noteIndex % scale.length) ""
      ++ toString (baseOctaves.getD i 0 + noteData.octaveShift)
    if s.samplersCreated ∧ s.loadedStates v then
      [.trigger v .sampler finalNote (durations.getD i "") noteData.velocity]
    else
      [.trigger v .fallback finalNote (durations.getD i "") (noteData.velocity * 0.4)]
  else []

/-- One full tick of the `Tone.Loop` callback: the four voices in order. -/
noncomputable def tickActions (s : EngineState) (step : ℕ) : List AudioAction :=
  tickVoiceActions s step 0 .bass ++ tickVoiceActions s step 1 .tenor
    ++ tickVoiceActions s step 2 .alto ++ tickVoiceActions s step 3 .soprano

/-- Effect of one tick on the sounding-note counts. -/
noncomputable def tick (s : EngineState) (snd : SoundState) (step : ℕ) : SoundState :=
  runActions snd (tickActions s step)

/-- `stop()` from `src/services/musicEngine.ts`: stops and cancels the
transport, disposes the loop, sets the phase to `idle` and notifies —
but makes NO `releaseAll` call, so the sounding-note counts are
unchanged. -/
def stop (s : EngineState) (snd : SoundState) :
    EngineState × SoundState × List CompositionPhase :=
  ( { s with loopActive := false, currentPhase := .idle },
    snd,
    if s.callbackRegistered then [.idle] else [] )

/-- `play(vector, phase)` from `src/services/musicEngine.ts`. -/
noncomputable def play (s : EngineState) (snd : SoundState) (vector : List ℝ)
    (phase : CompositionPhase) :
    EngineState × SoundState × List CompositionPhase :=
  let stopped := stop s snd
  let s1 := stopped.1
  ( { s1 with
      currentPhase := phase
      currentMelodies :=
        [ getVoiceMelody (jsSlice vector 0 96) 0 16,
          getVoiceMelody (jsSlice vector 96 192) 1 16,
          getVoiceMelody (jsSlice vector 192 288) 2 16,
          getVoiceMelody (jsSlice vector 288 384) 3 16 ]
      bpm := deriveTempo vector
      loopActive := true },
    stopped.2.1,
    stopped.2.2 ++ (if s.callbackRegistered then [phase] else []) )

end ServicesEngine

/-- Sounding-note counts are bounded by one per (voice, instrument): the
"at most one sustained note per voice" polyphony invariant. -/
def atMostOne (snd : SoundState) : Prop := ∀ v inst, snd v inst ≤ 1

/-- A sound state is consistent with an engine state when sampler notes can
only be sounding once `load()` has populated the samplers map (before that,
no code path can trigger a sampler). -/
def soundConsistent (s : EngineState) (snd : SoundState) : Prop :=
  s.samplersCreated = false → ∀ v, snd v .sampler = 0

/-- The action list of a tick satisfies "voice-exclusive retrigger": it
consists of `releaseAll` calls and of `releaseAll`-then-`trigger` pairs on
the same voice and instrument, so every `triggerAttackRelease` is
immediately preceded by a `releaseAll` on the instrument it targets. -/
inductive ReleaseBeforeTrigger : List AudioAction → Prop
  | nil : ReleaseBeforeTrigger []
  | releaseOnly (v : Voice) (inst : Instrument) (rest : List AudioAction) :
      ReleaseBeforeTrigger rest →
      ReleaseBeforeTrigger (.releaseAll v inst :: rest)
  | releaseTrigger (v : Voice) (inst : Instrument) (note dur : String) (vel : ℝ)
      (rest : List AudioAction) :
      ReleaseBeforeTrigger rest →
      ReleaseBeforeTrigger (.releaseAll v inst :: .trigger v inst note dur vel :: rest)

/-!
## Helper lemmas
-/

lemma foldl_addsq_replicate (n : ℕ) (c : ℝ) :
    List.foldl (fun acc v => acc + v * v) c (List.replicate n 0) = c := by
  induction n generalizing c with
  | zero => simp
  | succ m ih => simp [List.replicate_succ, ih]

lemma magnitude_replicate_zero (n : ℕ) : magnitude (List.replicate n (0:ℝ)) = 0 := by
  simp [magnitude, sumSqr, foldl_addsq_replicate]

lemma magnitude_vec04 : magnitude ((0.4:ℝ) :: List.replicate 383 0) = 0.4 := by
  have h : sumSqr ((0.4:ℝ) :: List.replicate 383 0) = (0:ℝ) + 0.4 * 0.4 := by
    rw [sumSqr, List.foldl_cons, foldl_addsq_replicate]
  have h2 : sumSqr ((0.4:ℝ) :: List.replicate 383 0) = 0.4 ^ 2 := by rw [h]; norm_num
  rw [magnitude, h2, Real.sqrt_sq (by norm_num : (0:ℝ) ≤ 0.4)]

lemma clamp_minmax (x : ℝ) : min 160 (max 50 x) = max 50 (min 160 x) := by
  rcases le_total x 50 with h | h <;> rcases le_total x 160 with h' | h' <;>
    simp [min_def, max_def] <;> split_ifs <;> linarith

lemma localMelody_length (sl : List ℝ) (idx n : ℕ) :
    (LocalEngine.getVoiceMelody sl idx n).length = n := by
  simp [LocalEngine.getVoiceMelody]

lemma localMelody_getD (sl : List ℝ) (idx n i : ℕ) (h : i < n) :
    (LocalEngine.getVoiceMelody sl idx n).getD i default =
      { noteIndex := (⌊Real.tanh (sl.getD (i % sl.length) 0 * 15) * 14⌋).natAbs % 7
        octaveShift := ⌊Real.tanh (sl.getD (i % sl.length) 0 * 15) * 2⌋
        gate := |sl.getD (i % sl.length) 0 * 25| > 0.5 + (idx : ℝ) * 0.1
        velocity := min 1 (max 0.25 (0.5 + sl.getD (i % sl.length) 0 * 5)) } := by
  rw [List.getD_eq_getElem _ _ (by simpa [localMelody_length] using h)]
  simp [LocalEngine.getVoiceMelody, scale]

lemma svcMelody_length (sl : List ℝ) (idx n : ℕ) :
    (ServicesEngine.getVoiceMelody sl idx n).length = n := by
  simp [ServicesEngine.getVoiceMelody]

lemma svcMelody_getD (sl : List ℝ) (idx n i : ℕ) (h : i < n) :
    (ServicesEngine.getVoiceMelody sl idx n).getD i default =
      { noteIndex := (⌊Real.tanh (sl.getD (i % sl.length) 0 * 15) * 14⌋).natAbs % 7
        octaveShift := ⌊Real.tanh (sl.getD (i % sl.length) 0 * 15) * 2⌋
        gate := |sl.getD (i % sl.length) 0 * 25| > 0.4 + (idx : ℝ) * 0.1
        velocity := min 1 (max 0.25 (0.5 + sl.getD (i % sl.length) 0 * 5)) } := by
  rw [List.getD_eq_getElem _ _ (by simpa [svcMelody_length] using h)]
  simp [ServicesEngine.getVoiceMelody, scale]

lemma getD_replicate_zero (n i : ℕ) : (List.replicate n (0:ℝ)).getD i 0 = 0 := by
  rcases lt_or_ge i n with h | h
  · rw [List.getD_eq_getElem _ _ (by simpa using h)]; simp
  · rw [List.getD_eq_default _ _ (by simpa using h)]

lemma jsSlice_length (xs : List ℝ) (a b : ℕ) :
    (jsSlice xs a b).length = min (b - a) (xs.length - a) := by
  simp [jsSlice]

lemma jsSlice_getD (xs : List ℝ) (a b i : ℕ) (h : i < b - a) (h2 : a + i < xs.length) :
    (jsSlice xs a b).getD i 0 = xs.getD (a + i) 0 := by
  unfold jsSlice
  rw [List.getD_eq_getElem _ _ (by simp [List.length_take, List.length_drop]; omega),
    List.getD_eq_getElem _ _ h2]
  simp [List.getElem_take, List.getElem_drop]

lemma jsSlice_replicate_zero (n a b : ℕ) :
    jsSlice (List.replicate n (0:ℝ)) a b = List.replicate (min (b - a) (n - a)) 0 := by
  rw [jsSlice, List.drop_replicate, List.take_replicate]

lemma svcMelody_congr (sl1 sl2 : List ℝ) (idx : ℕ)
    (h1 : sl1.length = 96) (h2 : sl2.length = 96)
    (hag : ∀ i, i < 16 → sl1.getD i 0 = sl2.getD i 0) :
    ServicesEngine.getVoiceMelody sl1 idx 16 = ServicesEngine.getVoiceMelody sl2 idx 16 := by
  unfold ServicesEngine.getVoiceMelody
  refine List.map_congr_left ?_
  intro i hi
  have hi16 : i < 16 := List.mem_range.mp hi
  have e1 : i % sl1.length = i := by rw [h1]; exact Nat.mod_eq_of_lt (by omega)
  have e2 : i % sl2.length = i := by rw [h2]; exact Nat.mod_eq_of_lt (by omega)
  rw [e1, e2, hag i hi16]

lemma localMelody_congr (sl1 sl2 : List ℝ) (idx : ℕ)
    (h1 : sl1.length = 96) (h2 : sl2.length = 96)
    (hag : ∀ i, i < 16 → sl1.getD i 0 = sl2.getD i 0) :
    LocalEngine.getVoiceMelody sl1 idx 16 = LocalEngine.getVoiceMelody sl2 idx 16 := by
  unfold LocalEngine.getVoiceMelody
  refine List.map_congr_left ?_
  intro i hi
  have hi16 : i < 16 := List.mem_range.mp hi
  have e1 : i % sl1.length = i := by rw [h1]; exact Nat.mod_eq_of_lt (by omega)
  have e2 : i % sl2.length = i := by rw [h2]; exact Nat.mod_eq_of_lt (by omega)
  rw [e1, e2, hag i hi16]

lemma ReleaseBeforeTrigger.append (xs ys : List AudioAction)
    (hx : ReleaseBeforeTrigger xs) (hy : ReleaseBeforeTrigger ys) :
    ReleaseBeforeTrigger (xs ++ ys) := by
  induction hx with
  | nil => simpa using hy
  | releaseOnly v inst rest _ ih =>
      rw [List.cons_append]
      exact .releaseOnly _ _ _ ih
  | releaseTrigger v inst note dur vel rest _ ih =>
      rw [List.cons_append, List.cons_append]
      exact .releaseTrigger _ _ _ _ _ _ ih

lemma LocalEngine.tickVoiceActions_shape (s : EngineState) (step i : ℕ) (v : Voice) :
    LocalEngine.tickVoiceActions s step i v = [] ∨
    ∃ inst note dur vel, LocalEngine.tickVoiceActions s step i v =
      [.releaseAll v inst, .trigger v inst note dur vel] := by
  unfold LocalEngine.tickVoiceActions
  dsimp only
  split
  · split
    · exact Or.inr ⟨.sampler, _, _, _, rfl⟩
    · exact Or.inr ⟨.fallback, _, _, _, rfl⟩
  · exact Or.inl rfl

lemma LocalEngine.tickVoiceActions_rbt (s : EngineState) (step i : ℕ) (v : Voice) :
    ReleaseBeforeTrigger (LocalEngine.tickVoiceActions s step i v) := by
  rcases LocalEngine.tickVoiceActions_shape s step i v with h | ⟨inst, note, dur, vel, h⟩ <;>
    rw [h]
  · exact .nil
  · exact .releaseTrigger _ _ _ _ _ _ .nil

lemma runActions_append (snd : SoundState) (xs ys : List AudioAction) :
    runActions snd (xs ++ ys) = runActions (runActions snd xs) ys :=
  List.foldl_append _ _ _ _

lemma atMostOne_runActions_pair (snd : SoundState) (h : atMostOne snd)
    (v : Voice) (inst : Instrument) (note dur : String) (vel : ℝ) :
    atMostOne (runActions snd [.releaseAll v inst, .trigger v inst note dur vel]) := by
  intro v' i'
  by_cases hc : v' = v ∧ i' = inst
  · simp [runActions, applyAction, hc]
  · simp [runActions, applyAction, hc]
    exact h v' i'

lemma LocalEngine.tickVoiceActions_atMostOne (s : EngineState) (step i : ℕ)
    (v : Voice) (snd : SoundState) (h : atMostOne snd) :
    atMostOne (runActions snd (LocalEngine.tickVoiceActions s step i v)) := by
  rcases LocalEngine.tickVoiceActions_shape s step i v with h0 | ⟨inst, note, dur, vel, h0⟩ <;>
    rw [h0]
  · simpa [runActions] using h
  · exact atMostOne_runActions_pair snd h v inst note dur vel

lemma ServicesEngine.tickVoiceActions_step0 (s : EngineState) (i : ℕ) (v : Voice)
    (hcreated : s.samplersCreated = true) :
    ServicesEngine.tickVoiceActions s 0 i v =
      (let melody := s.currentMelodies.getD i []
       let noteData := melody.getD (0 % melody.length) default
       let finalNote := scale.getD (noteData.noteIndex % scale.length) ""
         ++ toString (baseOctaves.getD i 0 + noteData.octaveShift)
       if s.loadedStates v = true then
         [AudioAction.trigger v .sampler finalNote
           (ServicesEngine.durations.getD i "") noteData.velocity]
       else
         [AudioAction.trigger v .fallback finalNote
           (ServicesEngine.durations.getD i "") (noteData.velocity * 0.4)]) := by
  unfold ServicesEngine.tickVoiceActions
  rw [if_pos (Or.inr rfl)]
  by_cases hl : s.loadedStates v = true
  · rw [if_pos ⟨hcreated, hl⟩, if_pos hl]
  · rw [if_neg (fun hand => hl hand.2), if_neg hl]

/-!
## Claims
-/

/-- Claim C2: for every 96-length real slice and voiceIndex in [0,3], the
melody generator (in both engine revisions) with stepCount 16 (the default)
returns exactly 16 NoteEvents, and for each step `i` with
`val = slice[i mod 96]` and `amplified = tanh(val * 15)`: the scale-degree
index equals `|floor(amplified * 14)| mod 7` and lies in [0,6], the octave
shift equals `floor(amplified * 2)`, and the velocity equals
`clamp(0.5 + val * 5, 0.25, 1.0)` and lies in [0.25, 1.0]. -/
theorem claim_C2 (slice : List ℝ) (h96 : slice.length = 96) (voiceIdx : ℕ)
    (hv : voiceIdx ≤ 3) (i : ℕ) (hi : i < 16) :
    (ServicesEngine.getVoiceMelody slice voiceIdx 16).length = 16 ∧
    (LocalEngine.getVoiceMelody slice voiceIdx 16).length = 16 ∧
    ((ServicesEngine.getVoiceMelody slice voiceIdx 16).getD i default).noteIndex
      = (⌊Real.tanh (slice.getD (i % 96) 0 * 15) * 14⌋).natAbs % 7 ∧
    ((ServicesEngine.getVoiceMelody slice voiceIdx 16).getD i default).noteIndex ≤ 6 ∧
    ((ServicesEngine.getVoiceMelody slice voiceIdx 16).getD i default).octaveShift
      = ⌊Real.tanh (slice.getD (i % 96) 0 * 15) * 2⌋ ∧
    ((ServicesEngine.getVoiceMelody slice voiceIdx 16).getD i default).velocity
      = min 1 (max 0.25 (0.5 + slice.getD (i % 96) 0 * 5)) ∧
    0.25 ≤ ((ServicesEngine.getVoiceMelody slice voiceIdx 16).getD i default).velocity ∧
    ((ServicesEngine.getVoiceMelody slice voiceIdx 16).getD i default).velocity ≤ 1 ∧
    ((LocalEngine.getVoiceMelody slice voiceIdx 16).getD i default).noteIndex
      = (⌊Real.tanh (slice.getD (i % 96) 0 * 15) * 14⌋).natAbs % 7 ∧
    ((LocalEngine.getVoiceMelody slice voiceIdx 16).getD i default).octaveShift
      = ⌊Real.tanh (slice.getD (i % 96) 0 * 15) * 2⌋ ∧
    ((LocalEngine.getVoiceMelody slice voiceIdx 16).getD i default).velocity
      = min 1 (max 0.25 (0.5 + slice.getD (i % 96) 0 * 5)) := by
  rw [svcMelody_getD slice voiceIdx 16 i hi,
    localMelody_getD slice voiceIdx 16 i hi, h96,
    svcMelody_length, localMelody_length]
  refine ⟨rfl, rfl, rfl, ?_, rfl, rfl, ?_, ?_, rfl, rfl, rfl⟩
  · exact Nat.le_of_lt_succ (Nat.mod_lt _ (by norm_num))
  · exact le_min (by norm_num) (le_max_left _ _)
  · exact min_le_left _ _

/-- Witness for C2 at the all-zeros 96-slice, voice 0, step 0. -/
theorem claim_C2_witness :
    (List.replicate 96 (0:ℝ)).length = 96 ∧ (0:ℕ) ≤ 3 ∧ (0:ℕ) < 16 ∧
    ((ServicesEngine.getVoiceMelody (List.replicate 96 (0:ℝ)) 0 16).length = 16 ∧
      (LocalEngine.getVoiceMelody (List.replicate 96 (0:ℝ)) 0 16).length = 16 ∧
      ((ServicesEngine.getVoiceMelody (List.replicate 96 (0:ℝ)) 0 16).getD 0 default).noteIndex
        = (⌊Real.tanh ((List.replicate 96 (0:ℝ)).getD (0 % 96) 0 * 15) * 14⌋).natAbs % 7 ∧
      ((ServicesEngine.getVoiceMelody (List.replicate 96 (0:ℝ)) 0 16).getD 0 default).noteIndex ≤ 6 ∧
      ((ServicesEngine.getVoiceMelody (List.replicate 96 (0:ℝ)) 0 16).getD 0 default).octaveShift
        = ⌊Real.tanh ((List.replicate 96 (0:ℝ)).getD (0 % 96) 0 * 15) * 2⌋ ∧
      ((ServicesEngine.getVoiceMelody (List.replicate 96 (0:ℝ)) 0 16).getD 0 default).velocity
        = min 1 (max 0.25 (0.5 + (List.replicate 96 (0:ℝ)).getD (0 % 96) 0 * 5)) ∧
      0.25 ≤ ((ServicesEngine.getVoiceMelody (List.replicate 96 (0:ℝ)) 0 16).getD 0 default).velocity ∧
      ((ServicesEngine.getVoiceMelody (List.replicate 96 (0:ℝ)) 0 16).getD 0 default).velocity ≤ 1 ∧
      ((LocalEngine.getVoiceMelody (List.replicate 96 (0:ℝ)) 0 16).getD 0 default).noteIndex
        = (⌊Real.tanh ((List.replicate 96 (0:ℝ)).getD (0 % 96) 0 * 15) * 14⌋).natAbs % 7 ∧
      ((LocalEngine.getVoiceMelody (List.replicate 96 (0:ℝ)) 0 16).getD 0 default).octaveShift
        = ⌊Real.tanh ((List.replicate 96 (0:ℝ)).getD (0 % 96) 0 * 15) * 2⌋ ∧
      ((LocalEngine.getVoiceMelody (List.replicate 96 (0:ℝ)) 0 16).getD 0 default).velocity
        = min 1 (max 0.25 (0.5 + (List.replicate 96 (0:ℝ)).getD (0 % 96) 0 * 5))) :=
  ⟨by simp, by norm_num, by norm_num,
    claim_C2 (List.replicate 96 (0:ℝ)) (by simp) 0 (by norm_num) 0 (by norm_num)⟩

/-- Claim C3: for every 384-length real vector the derived tempo equals
`clamp(60 + ||v|| * 250, 50, 160)` with `||v||` the Euclidean magnitude, so
it lies in [50,160] and is monotone non-decreasing in `||v||`; the all-zeros
vector yields exactly 60 BPM and a vector of magnitude 0.4 yields exactly
160 BPM. -/
theorem claim_C3 (v w : List ℝ) (hv : v.length = 384) (hw : w.length = 384)
    (hmag : magnitude v ≤ magnitude w) :
    deriveTempo v = max 50 (min 160 (60 + magnitude v * 250)) ∧
    50 ≤ deriveTempo v ∧ deriveTempo v ≤ 160 ∧
    deriveTempo v ≤ deriveTempo w ∧
    deriveTempo (List.replicate 384 (0:ℝ)) = 60 ∧
    deriveTempo ((0.4:ℝ) :: List.replicate 383 0) = 160 := by
  refine ⟨clamp_minmax _, le_min (by norm_num) (le_max_left _ _), min_le_left _ _,
    min_le_min le_rfl (max_le_max le_rfl
      (add_le_add_left (mul_le_mul_of_nonneg_right hmag (by norm_num)) 60)), ?_, ?_⟩
  · rw [deriveTempo, magnitude_replicate_zero]; norm_num
  · rw [deriveTempo, magnitude_vec04]; norm_num

/-- Witness for C3: the all-zeros vector against the magnitude-0.4 vector. -/
theorem claim_C3_witness :
    (List.replicate 384 (0:ℝ)).length = 384 ∧
    ((0.4:ℝ) :: List.replicate 383 0).length = 384 ∧
    magnitude (List.replicate 384 (0:ℝ)) ≤ magnitude ((0.4:ℝ) :: List.replicate 383 0) ∧
    (deriveTempo (List.replicate 384 (0:ℝ))
        = max 50 (min 160 (60 + magnitude (List.replicate 384 (0:ℝ)) * 250)) ∧
      50 ≤ deriveTempo (List.replicate 384 (0:ℝ)) ∧
      deriveTempo (List.replicate 384 (0:ℝ)) ≤ 160 ∧
      deriveTempo (List.replicate 384 (0:ℝ)) ≤ deriveTempo ((0.4:ℝ) :: List.replicate 383 0) ∧
      deriveTempo (List.replicate 384 (0:ℝ)) = 60 ∧
      deriveTempo ((0.4:ℝ) :: List.replicate 383 0) = 160) := by
  have hm : magnitude (List.replicate 384 (0:ℝ)) ≤ magnitude ((0.4:ℝ) :: List.replicate 383 0) := by
    rw [magnitude_replicate_zero, magnitude_vec04]; norm_num
  exact ⟨by rw [List.length_replicate], by rw [List.length_cons, List.length_replicate],
    hm, claim_C3 _ _ (by rw [List.length_replicate])
      (by rw [List.length_cons, List.length_replicate]) hm⟩

/-- Claim C10: the melody generators of the two engine variants are
equivalent except for the gate threshold: for every slice, voiceIndex,
stepCount and step, both produce equal noteIndex, octaveShift and velocity,
and the gate flags are the same comparison except for the base constant
(0.5 in `src/musicEngine.ts`, 0.4 in `src/services/musicEngine.ts`); in
particular the stricter 0.5-gate implies the 0.4-gate. -/
theorem claim_C10 (sl : List ℝ) (idx n i : ℕ) (hi : i < n) :
    ((LocalEngine.getVoiceMelody sl idx n).getD i default).noteIndex
      = ((ServicesEngine.getVoiceMelody sl idx n).getD i default).noteIndex ∧
    ((LocalEngine.getVoiceMelody sl idx n).getD i default).octaveShift
      = ((ServicesEngine.getVoiceMelody sl idx n).getD i default).octaveShift ∧
    ((LocalEngine.getVoiceMelody sl idx n).getD i default).velocity
      = ((ServicesEngine.getVoiceMelody sl idx n).getD i default).velocity ∧
    (((LocalEngine.getVoiceMelody sl idx n).getD i default).gate ↔
      |sl.getD (i % sl.length) 0 * 25| > 0.5 + (idx : ℝ) * 0.1) ∧
    (((ServicesEngine.getVoiceMelody sl idx n).getD i default).gate ↔
      |sl.getD (i % sl.length) 0 * 25| > 0.4 + (idx : ℝ) * 0.1) ∧
    (((LocalEngine.getVoiceMelody sl idx n).getD i default).gate →
      ((ServicesEngine.getVoiceMelody sl idx n).getD i default).gate) ∧
    (LocalEngine.getVoiceMelody sl idx n).length
      = (ServicesEngine.getVoiceMelody sl idx n).length := by
  rw [localMelody_getD sl idx n i hi,
    svcMelody_getD sl idx n i hi,
    localMelody_length, svcMelody_length]
  refine ⟨rfl, rfl, rfl, Iff.rfl, Iff.rfl, ?_, rfl⟩
  intro h
  exact lt_trans (by linarith) h

/-- Witness for C10 at the all-zeros 96-slice, voice 0, step 0. -/
theorem claim_C10_witness :
    (0:ℕ) < 16 ∧
    (((LocalEngine.getVoiceMelody (List.replicate 96 (0:ℝ)) 0 16).getD 0 default).noteIndex
        = ((ServicesEngine.getVoiceMelody (List.replicate 96 (0:ℝ)) 0 16).getD 0 default).noteIndex ∧
      ((LocalEngine.getVoiceMelody (List.replicate 96 (0:ℝ)) 0 16).getD 0 default).octaveShift
        = ((ServicesEngine.getVoiceMelody (List.replicate 96 (0:ℝ)) 0 16).getD 0 default).octaveShift ∧
      ((LocalEngine.getVoiceMelody (List.replicate 96 (0:ℝ)) 0 16).getD 0 default).velocity
        = ((ServicesEngine.getVoiceMelody (List.replicate 96 (0:ℝ)) 0 16).getD 0 default).velocity ∧
      (((LocalEngine.getVoiceMelody (List.replicate 96 (0:ℝ)) 0 16).getD 0 default).gate ↔
        |(List.replicate 96 (0:ℝ)).getD (0 % (List.replicate 96 (0:ℝ)).length) 0 * 25| > 0.5 + ((0:ℕ) : ℝ) * 0.1) ∧
      (((ServicesEngine.getVoiceMelody (List.replicate 96 (0:ℝ)) 0 16).getD 0 default).gate ↔
        |(List.replicate 96 (0:ℝ)).getD (0 % (List.replicate 96 (0:ℝ)).length) 0 * 25| > 0.4 + ((0:ℕ) : ℝ) * 0.1) ∧
      (((LocalEngine.getVoiceMelody (List.replicate 96 (0:ℝ)) 0 16).getD 0 default).gate →
        ((ServicesEngine.getVoiceMelody (List.replicate 96 (0:ℝ)) 0 16).getD 0 default).gate) ∧
      (LocalEngine.getVoiceMelody (List.replicate 96 (0:ℝ)) 0 16).length
        = (ServicesEngine.getVoiceMelody (List.replicate 96 (0:ℝ)) 0 16).length) :=
  ⟨by norm_num, claim_C10 (List.replicate 96 (0:ℝ)) 0 16 0 (by norm_num)⟩

/-- Counterexample to C4 as stated: in the `src/musicEngine.ts` variant the
gate base threshold is 0.5, not 0.4.  At `val = 0.018`, voice 0, we have
`|val * 25| = 0.45 > 0.4` so the claimed formula says the gate is true, but
the generated NoteEvent's gate is `0.45 > 0.5`, which is false. -/
theorem claim_C4_counterexample :
    ¬ (((LocalEngine.getVoiceMelody [(0.018:ℝ)] 0 16).getD 0 default).gate ↔
        |(0.018:ℝ) * 25| > 0.4 + ((0:ℕ) : ℝ) * 0.1) := by
  rw [localMelody_getD _ _ _ _ (by norm_num)]
  intro h
  have h45 : |(0.018:ℝ) * 25| = 0.45 := by rw [abs_of_pos] <;> norm_num
  have hgate := h.mpr (by rw [h45]; norm_num)
  simp only [List.length_singleton, Nat.mod_self, Nat.zero_mod, List.getD_cons_zero] at hgate
  rw [h45] at hgate
  norm_num at hgate

/-- Claim C4 (amended): the gate flag is `|val * 25| > base + voiceIndex * 0.1`
where the base constant is 0.4 in the `src/services/musicEngine.ts` variant
and 0.5 in the `src/musicEngine.ts` variant, so the gating threshold rises
with voice index in both; and for any all-zeros slice (in particular every
96-element quadrant of the all-zeros vector) every voice's gate is false on
every step in both variants. -/
theorem claim_C4 (slice : List ℝ) (voiceIdx n i : ℕ) (hi : i < n)
    (idx' j : ℕ) (hj : j < 16) :
    (((ServicesEngine.getVoiceMelody slice voiceIdx n).getD i default).gate ↔
      |slice.getD (i % slice.length) 0 * 25| > 0.4 + (voiceIdx : ℝ) * 0.1) ∧
    (((LocalEngine.getVoiceMelody slice voiceIdx n).getD i default).gate ↔
      |slice.getD (i % slice.length) 0 * 25| > 0.5 + (voiceIdx : ℝ) * 0.1) ∧
    jsSlice (List.replicate 384 (0:ℝ)) (96 * idx') (96 * idx' + 96)
      = List.replicate (min 96 (384 - 96 * idx')) 0 ∧
    ¬ ((ServicesEngine.getVoiceMelody (List.replicate 96 (0:ℝ)) idx' 16).getD j default).gate ∧
    ¬ ((LocalEngine.getVoiceMelody (List.replicate 96 (0:ℝ)) idx' 16).getD j default).gate := by
  rw [svcMelody_getD slice voiceIdx n i hi,
    localMelody_getD slice voiceIdx n i hi,
    svcMelody_getD _ idx' 16 j hj,
    localMelody_getD _ idx' 16 j hj,
    jsSlice_replicate_zero, getD_replicate_zero]
  have hc : ((idx' : ℝ)) ≥ 0 := Nat.cast_nonneg idx'
  have habs : |(0:ℝ) * 25| = 0 := by norm_num
  refine ⟨Iff.rfl, Iff.rfl, by rw [Nat.add_sub_cancel_left], ?_, ?_⟩ <;>
    · rw [habs]; intro hgt; linarith

/-- Witness for C4 at the all-zeros slice, voice 0, step 0. -/
theorem claim_C4_witness :
    (0:ℕ) < 16 ∧
    ((((ServicesEngine.getVoiceMelody (List.replicate 96 (0:ℝ)) 0 16).getD 0 default).gate ↔
        |(List.replicate 96 (0:ℝ)).getD (0 % (List.replicate 96 (0:ℝ)).length) 0 * 25|
          > 0.4 + ((0:ℕ) : ℝ) * 0.1) ∧
      (((LocalEngine.getVoiceMelody (List.replicate 96 (0:ℝ)) 0 16).getD 0 default).gate ↔
        |(List.replicate 96 (0:ℝ)).getD (0 % (List.replicate 96 (0:ℝ)).length) 0 * 25|
          > 0.5 + ((0:ℕ) : ℝ) * 0.1) ∧
      jsSlice (List.replicate 384 (0:ℝ)) (96 * 0) (96 * 0 + 96)
        = List.replicate (min 96 (384 - 96 * 0)) 0 ∧
      ¬ ((ServicesEngine.getVoiceMelody (List.replicate 96 (0:ℝ)) 0 16).getD 0 default).gate ∧
      ¬ ((LocalEngine.getVoiceMelody (List.replicate 96 (0:ℝ)) 0 16).getD 0 default).gate) :=
  ⟨by norm_num, claim_C4 (List.replicate 96 (0:ℝ)) 0 16 0 (by norm_num) 0 0 (by norm_num)⟩

/-- Claim C9: two 384-length vectors that agree on indices 0–15, 96–111,
192–207 and 288–303 yield identical melodies for all four voices in both
engine variants: with stepCount 16 and 96-element quadrant slices, melody
generation reads only the first 16 elements of each quadrant. -/
theorem claim_C9 (s : EngineState) (snd : SoundState) (phase : CompositionPhase)
    (v1 v2 : List ℝ) (h1 : v1.length = 384) (h2 : v2.length = 384)
    (hag : ∀ i, i < 16 →
      v1.getD i 0 = v2.getD i 0 ∧ v1.getD (96 + i) 0 = v2.getD (96 + i) 0 ∧
      v1.getD (192 + i) 0 = v2.getD (192 + i) 0 ∧ v1.getD (288 + i) 0 = v2.getD (288 + i) 0) :
    (ServicesEngine.play s snd v1 phase).1.currentMelodies
      = (ServicesEngine.play s snd v2 phase).1.currentMelodies ∧
    (LocalEngine.play s snd v1 phase).1.currentMelodies
      = (LocalEngine.play s snd v2 phase).1.currentMelodies := by
  have l1a : (jsSlice v1 0 96).length = 96 := by rw [jsSlice_length, h1]; norm_num
  have l1b : (jsSlice v1 96 192).length = 96 := by rw [jsSlice_length, h1]; norm_num
  have l1c : (jsSlice v1 192 288).length = 96 := by rw [jsSlice_length, h1]; norm_num
  have l1d : (jsSlice v1 288 384).length = 96 := by rw [jsSlice_length, h1]; norm_num
  have l2a : (jsSlice v2 0 96).length = 96 := by rw [jsSlice_length, h2]; norm_num
  have l2b : (jsSlice v2 96 192).length = 96 := by rw [jsSlice_length, h2]; norm_num
  have l2c : (jsSlice v2 192 288).length = 96 := by rw [jsSlice_length, h2]; norm_num
  have l2d : (jsSlice v2 288 384).length = 96 := by rw [jsSlice_length, h2]; norm_num
  have ga : ∀ i, i < 16 → (jsSlice v1 0 96).getD i 0 = (jsSlice v2 0 96).getD i 0 := by
    intro i hi
    rw [jsSlice_getD _ _ _ _ (by omega) (by omega), jsSlice_getD _ _ _ _ (by omega) (by omega)]
    simpa using (hag i hi).1
  have gb : ∀ i, i < 16 → (jsSlice v1 96 192).getD i 0 = (jsSlice v2 96 192).getD i 0 := by
    intro i hi
    rw [jsSlice_getD _ _ _ _ (by omega) (by omega), jsSlice_getD _ _ _ _ (by omega) (by omega)]
    exact (hag i hi).2.1
  have gc : ∀ i, i < 16 → (jsSlice v1 192 288).getD i 0 = (jsSlice v2 192 288).getD i 0 := by
    intro i hi
    rw [jsSlice_getD _ _ _ _ (by omega) (by omega), jsSlice_getD _ _ _ _ (by omega) (by omega)]
    exact (hag i hi).2.2.1
  have gd : ∀ i, i < 16 → (jsSlice v1 288 384).getD i 0 = (jsSlice v2 288 384).getD i 0 := by
    intro i hi
    rw [jsSlice_getD _ _ _ _ (by omega) (by omega), jsSlice_getD _ _ _ _ (by omega) (by omega)]
    exact (hag i hi).2.2.2
  constructor
  · simp only [ServicesEngine.play, ServicesEngine.stop]
    rw [svcMelody_congr _ _ 0 l1a l2a ga,
      svcMelody_congr _ _ 1 l1b l2b gb,
      svcMelody_congr _ _ 2 l1c l2c gc,
      svcMelody_congr _ _ 3 l1d l2d gd]
  · simp only [LocalEngine.play, LocalEngine.stop]
    rw [localMelody_congr _ _ 0 l1a l2a ga,
      localMelody_congr _ _ 1 l1b l2b gb,
      localMelody_congr _ _ 2 l1c l2c gc,
      localMelody_congr _ _ 3 l1d l2d gd]

/-- Witness for C9: the all-zeros vector against the vector whose only
non-zero entry is 0.4 at index 383 — inside the soprano quadrant but outside
every melody read window, so all four melodies coincide. -/
theorem claim_C9_witness :
    (List.replicate 384 (0:ℝ)).length = 384 ∧
    (List.replicate 383 (0:ℝ) ++ [0.4]).length = 384 ∧
    (∀ i, i < 16 →
      (List.replicate 384 (0:ℝ)).getD i 0 = (List.replicate 383 (0:ℝ) ++ [0.4]).getD i 0 ∧
      (List.replicate 384 (0:ℝ)).getD (96 + i) 0
        = (List.replicate 383 (0:ℝ) ++ [0.4]).getD (96 + i) 0 ∧
      (List.replicate 384 (0:ℝ)).getD (192 + i) 0
        = (List.replicate 383 (0:ℝ) ++ [0.4]).getD (192 + i) 0 ∧
      (List.replicate 384 (0:ℝ)).getD (288 + i) 0
        = (List.replicate 383 (0:ℝ) ++ [0.4]).getD (288 + i) 0) ∧
    ((ServicesEngine.play initialState (fun _ _ => 0) (List.replicate 384 (0:ℝ)) .start).1.currentMelodies
      = (ServicesEngine.play initialState (fun _ _ => 0) (List.replicate 383 (0:ℝ) ++ [0.4]) .start).1.currentMelodies ∧
    (LocalEngine.play initialState (fun _ _ => 0) (List.replicate 384 (0:ℝ)) .start).1.currentMelodies
      = (LocalEngine.play initialState (fun _ _ => 0) (List.replicate 383 (0:ℝ) ++ [0.4]) .start).1.currentMelodies) := by
  have hlen1 : (List.replicate 384 (0:ℝ)).length = 384 := by rw [List.length_replicate]
  have hlen2 : (List.replicate 383 (0:ℝ) ++ [0.4]).length = 384 := by
    rw [List.length_append, List.length_replicate, List.length_singleton]
  have hag : ∀ i, i < 16 →
      (List.replicate 384 (0:ℝ)).getD i 0 = (List.replicate 383 (0:ℝ) ++ [0.4]).getD i 0 ∧
      (List.replicate 384 (0:ℝ)).getD (96 + i) 0
        = (List.replicate 383 (0:ℝ) ++ [0.4]).getD (96 + i) 0 ∧
      (List.replicate 384 (0:ℝ)).getD (192 + i) 0
        = (List.replicate 383 (0:ℝ) ++ [0.4]).getD (192 + i) 0 ∧
      (List.replicate 384 (0:ℝ)).getD (288 + i) 0
        = (List.replicate 383 (0:ℝ) ++ [0.4]).getD (288 + i) 0 := by
    intro i hi
    refine ⟨?_, ?_, ?_, ?_⟩ <;>
      rw [getD_replicate_zero, List.getD_append _ _ _ _ (by rw [List.length_replicate]; omega),
        getD_replicate_zero]
  exact ⟨hlen1, hlen2, hag,
    claim_C9 initialState (fun _ _ => 0) .start _ _ hlen1 hlen2 hag⟩

/-- Claim C1: voice-exclusive retrigger.  In the `src/musicEngine.ts`
variant every `triggerAttackRelease` in a loop tick is immediately preceded
by a `releaseAll` on the same voice's active instrument, and consequently a
tick preserves the at-most-one-sustained-note-per-voice bound.  The
`src/services/musicEngine.ts` variant violates the claim: its loop callback
never calls `releaseAll`, so a tick adds a second sounding note on a voice
that already has one — evaluated here at the all-zeros melodies, all
samples loaded, step 0, with one note already sounding on the bass sampler,
after which two notes are sounding. -/
theorem claim_C1 (s : EngineState) (snd : SoundState) (step : ℕ) (h : atMostOne snd) :
    ReleaseBeforeTrigger (LocalEngine.tickActions s step) ∧
    atMostOne (LocalEngine.tick s snd step) ∧
    (ServicesEngine.tick
        { samplersCreated := true
          loadedStates := fun _ => true
          isInitialized := true
          currentMelodies :=
            [ ServicesEngine.getVoiceMelody (List.replicate 96 0) 0 16,
              ServicesEngine.getVoiceMelody (List.replicate 96 0) 1 16,
              ServicesEngine.getVoiceMelody (List.replicate 96 0) 2 16,
              ServicesEngine.getVoiceMelody (List.replicate 96 0) 3 16 ]
          currentPhase := .start
          callbackRegistered := false
          loopActive := true
          bpm := 60 }
        (fun vc inst => if vc = Voice.bass ∧ inst = Instrument.sampler then 1 else 0) 0)
      Voice.bass Instrument.sampler = 2 := by
  refine ⟨?_, ?_, ?_⟩
  · rw [LocalEngine.tickActions]
    exact .append _ _ (.append _ _ (.append _ _
      (LocalEngine.tickVoiceActions_rbt s step 0 .bass)
      (LocalEngine.tickVoiceActions_rbt s step 1 .tenor))
      (LocalEngine.tickVoiceActions_rbt s step 2 .alto))
      (LocalEngine.tickVoiceActions_rbt s step 3 .soprano)
  · rw [LocalEngine.tick, LocalEngine.tickActions, runActions_append, runActions_append,
      runActions_append]
    exact LocalEngine.tickVoiceActions_atMostOne _ _ _ _ _
      (LocalEngine.tickVoiceActions_atMostOne _ _ _ _ _
        (LocalEngine.tickVoiceActions_atMostOne _ _ _ _ _
          (LocalEngine.tickVoiceActions_atMostOne _ _ _ _ _ h)))
  · rw [ServicesEngine.tick, ServicesEngine.tickActions,
      ServicesEngine.tickVoiceActions_step0 _ _ _ rfl,
      ServicesEngine.tickVoiceActions_step0 _ _ _ rfl,
      ServicesEngine.tickVoiceActions_step0 _ _ _ rfl,
      ServicesEngine.tickVoiceActions_step0 _ _ _ rfl]
    simp [runActions, applyAction]

/-- Witness for C1 at the trivially silent sound state. -/
theorem claim_C1_witness :
    atMostOne (fun _ _ => 0) ∧
    (ReleaseBeforeTrigger (LocalEngine.tickActions initialState 0) ∧
      atMostOne (LocalEngine.tick initialState (fun _ _ => 0) 0) ∧
      (ServicesEngine.tick
          { samplersCreated := true
            loadedStates := fun _ => true
            isInitialized := true
            currentMelodies :=
              [ ServicesEngine.getVoiceMelody (List.replicate 96 0) 0 16,
                ServicesEngine.getVoiceMelody (List.replicate 96 0) 1 16,
                ServicesEngine.getVoiceMelody (List.replicate 96 0) 2 16,
                ServicesEngine.getVoiceMelody (List.replicate 96 0) 3 16 ]
            currentPhase := .start
            callbackRegistered := false
            loopActive := true
            bpm := 60 }
          (fun vc inst => if vc = Voice.bass ∧ inst = Instrument.sampler then 1 else 0) 0)
        Voice.bass Instrument.sampler = 2) :=
  ⟨fun _ _ => Nat.zero_le 1,
    claim_C1 initialState (fun _ _ => 0) 0 (fun _ _ => Nat.zero_le 1)⟩

/-- Counterexample to C5 as stated: in the `src/services/musicEngine.ts`
variant `stop()` makes no `releaseAll` call, so from a state with a sounding
note on every instrument, a note is still sounding after `stop()`. -/
theorem claim_C5_counterexample :
    ¬ (∀ vc inst, (ServicesEngine.stop initialState (fun _ _ => 1)).2.1 vc inst = 0) := by
  intro hall
  have h := hall Voice.bass Instrument.fallback
  simp [ServicesEngine.stop] at h

/-- Claim C5 (amended): in both variants `stop()` is total, idempotent on
the engine state, and ends in phase `idle` with no active loop; in the
`src/musicEngine.ts` variant it additionally releases every sounding note on
both the sampler and fallback paths (sampler notes can only exist once the
samplers map is populated), and a second `stop()` changes nothing; in the
services variant `stop()` leaves the sounding-note counts unchanged. -/
theorem claim_C5 (s : EngineState) (snd : SoundState) (hc : soundConsistent s snd) :
    (LocalEngine.stop s snd).1.currentPhase = .idle ∧
    (LocalEngine.stop s snd).1.loopActive = false ∧
    (∀ vc inst, (LocalEngine.stop s snd).2.1 vc inst = 0) ∧
    (LocalEngine.stop (LocalEngine.stop s snd).1 (LocalEngine.stop s snd).2.1).1
      = (LocalEngine.stop s snd).1 ∧
    (LocalEngine.stop (LocalEngine.stop s snd).1 (LocalEngine.stop s snd).2.1).2.1
      = (LocalEngine.stop s snd).2.1 ∧
    (ServicesEngine.stop s snd).1.currentPhase = .idle ∧
    (ServicesEngine.stop s snd).1.loopActive = false ∧
    (ServicesEngine.stop (ServicesEngine.stop s snd).1 (ServicesEngine.stop s snd).2.1).1
      = (ServicesEngine.stop s snd).1 ∧
    (ServicesEngine.stop s snd).2.1 = snd := by
  refine ⟨rfl, rfl, ?_, rfl, ?_, rfl, rfl, rfl, rfl⟩
  · intro vc inst
    cases inst
    · cases hsc : s.samplersCreated
      · simpa [LocalEngine.stop, hsc] using hc hsc vc
      · simp [LocalEngine.stop, hsc]
    · simp [LocalEngine.stop]
  · funext vc inst
    cases inst
    · cases hsc : s.samplersCreated <;> simp [LocalEngine.stop, hsc]
    · simp [LocalEngine.stop]

/-- Witness for C5 at the freshly constructed engine and silent sound state. -/
theorem claim_C5_witness :
    soundConsistent initialState (fun _ _ => 0) ∧
    ((LocalEngine.stop initialState (fun _ _ => 0)).1.currentPhase = .idle ∧
      (LocalEngine.stop initialState (fun _ _ => 0)).1.loopActive = false ∧
      (∀ vc inst, (LocalEngine.stop initialState (fun _ _ => 0)).2.1 vc inst = 0) ∧
      (LocalEngine.stop (LocalEngine.stop initialState (fun _ _ => 0)).1
          (LocalEngine.stop initialState (fun _ _ => 0)).2.1).1
        = (LocalEngine.stop initialState (fun _ _ => 0)).1 ∧
      (LocalEngine.stop (LocalEngine.stop initialState (fun _ _ => 0)).1
          (LocalEngine.stop initialState (fun _ _ => 0)).2.1).2.1
        = (LocalEngine.stop initialState (fun _ _ => 0)).2.1 ∧
      (ServicesEngine.stop initialState (fun _ _ => 0)).1.currentPhase = .idle ∧
      (ServicesEngine.stop initialState (fun _ _ => 0)).1.loopActive = false ∧
      (ServicesEngine.stop (ServicesEngine.stop initialState (fun _ _ => 0)).1
          (ServicesEngine.stop initialState (fun _ _ => 0)).2.1).1
        = (ServicesEngine.stop initialState (fun _ _ => 0)).1 ∧
      (ServicesEngine.stop initialState (fun _ _ => 0)).2.1 = (fun _ _ => 0)) :=
  ⟨fun _ _ => rfl, claim_C5 initialState (fun _ _ => 0) (fun _ _ => rfl)⟩

set_option maxRecDepth 8192 in
/-- Counterexample to C6 as stated: after `play(v, 'start')` then
`play(v, 'end')` with a registered observer, the observer has received four
notifications `[idle, start, idle, end]` — each play's internal `stop()`
leaks an `idle` — not the claimed two `[start, end]`.  Shown on the services
variant. -/
theorem claim_C6_counterexample :
    ((ServicesEngine.play { initialState with callbackRegistered := true } (fun _ _ => 0)
        (List.replicate 384 (0:ℝ)) .start).2.2 ++
      (ServicesEngine.play
        (ServicesEngine.play { initialState with callbackRegistered := true } (fun _ _ => 0)
          (List.replicate 384 (0:ℝ)) .start).1
        (ServicesEngine.play { initialState with callbackRegistered := true } (fun _ _ => 0)
          (List.replicate 384 (0:ℝ)) .start).2.1
        (List.replicate 384 (0:ℝ)) .«end»).2.2)
      = [CompositionPhase.idle, .start, .idle, .«end»] ∧
    ((ServicesEngine.play { initialState with callbackRegistered := true } (fun _ _ => 0)
        (List.replicate 384 (0:ℝ)) .start).2.2 ++
      (ServicesEngine.play
        (ServicesEngine.play { initialState with callbackRegistered := true } (fun _ _ => 0)
          (List.replicate 384 (0:ℝ)) .start).1
        (ServicesEngine.play { initialState with callbackRegistered := true } (fun _ _ => 0)
          (List.replicate 384 (0:ℝ)) .start).2.1
        (List.replicate 384 (0:ℝ)) .«end»).2.2)
      ≠ [CompositionPhase.start, .«end»] := by
  have h : ((ServicesEngine.play { initialState with callbackRegistered := true } (fun _ _ => 0)
        (List.replicate 384 (0:ℝ)) .start).2.2 ++
      (ServicesEngine.play
        (ServicesEngine.play { initialState with callbackRegistered := true } (fun _ _ => 0)
          (List.replicate 384 (0:ℝ)) .start).1
        (ServicesEngine.play { initialState with callbackRegistered := true } (fun _ _ => 0)
          (List.replicate 384 (0:ℝ)) .start).2.1
        (List.replicate 384 (0:ℝ)) .«end»).2.2)
      = [CompositionPhase.idle, .start, .idle, .«end»] := by
    simp [ServicesEngine.play, ServicesEngine.stop]
  exact ⟨h, by rw [h]; decide⟩

/-- Claim C6 (amended): with a registered observer, `play(v1, p1)` followed
by `play(v2, p2)` delivers exactly four notifications, in order
`idle, p1, idle, p2`: each `play` first emits `idle` from its internal
`stop()` and then its own phase.  Holds in both variants. -/
theorem claim_C6 (s : EngineState) (snd : SoundState) (v1 v2 : List ℝ)
    (p1 p2 : CompositionPhase) (hcb : s.callbackRegistered = true) :
    (ServicesEngine.play s snd v1 p1).2.2 ++
      (ServicesEngine.play (ServicesEngine.play s snd v1 p1).1
        (ServicesEngine.play s snd v1 p1).2.1 v2 p2).2.2
      = [.idle, p1, .idle, p2] ∧
    (LocalEngine.play s snd v1 p1).2.2 ++
      (LocalEngine.play (LocalEngine.play s snd v1 p1).1
        (LocalEngine.play s snd v1 p1).2.1 v2 p2).2.2
      = [.idle, p1, .idle, p2] := by
  constructor
  · simp [ServicesEngine.play, ServicesEngine.stop, hcb]
  · simp [LocalEngine.play, LocalEngine.stop, hcb]

/-- Witness for C6 on a fresh engine with a registered observer. -/
theorem claim_C6_witness :
    ({ initialState with callbackRegistered := true } : EngineState).callbackRegistered = true ∧
    ((ServicesEngine.play { initialState with callbackRegistered := true } (fun _ _ => 0)
        (List.replicate 384 (0:ℝ)) .start).2.2 ++
      (ServicesEngine.play
        (ServicesEngine.play { initialState with callbackRegistered := true } (fun _ _ => 0)
          (List.replicate 384 (0:ℝ)) .start).1
        (ServicesEngine.play { initialState with callbackRegistered := true } (fun _ _ => 0)
          (List.replicate 384 (0:ℝ)) .start).2.1
        (List.replicate 384 (0:ℝ)) .traversal).2.2
      = [.idle, .start, .idle, .traversal] ∧
    (LocalEngine.play { initialState with callbackRegistered := true } (fun _ _ => 0)
        (List.replicate 384 (0:ℝ)) .start).2.2 ++
      (LocalEngine.play
        (LocalEngine.play { initialState with callbackRegistered := true } (fun _ _ => 0)
          (List.replicate 384 (0:ℝ)) .start).1
        (LocalEngine.play { initialState with callbackRegistered := true } (fun _ _ => 0)
          (List.replicate 384 (0:ℝ)) .start).2.1
        (List.replicate 384 (0:ℝ)) .traversal).2.2
      = [.idle, .start, .idle, .traversal]) :=
  ⟨rfl, claim_C6 { initialState with callbackRegistered := true } (fun _ _ => 0)
    (List.replicate 384 (0:ℝ)) (List.replicate 384 (0:ℝ)) .start .traversal rfl⟩

set_option maxRecDepth 8192 in
/-- Counterexample to C7 as stated: neither `play` implementation validates
the vector.  On a wrong-width vector (length 383 ≠ 384) `play` does not
fail: it runs to completion and mutates the transport state — the phase
changes from `idle` to `start` and a loop is started. -/
theorem claim_C7_counterexample :
    (List.replicate 383 (0:ℝ)).length ≠ 384 ∧
    (ServicesEngine.play initialState (fun _ _ => 0) (List.replicate 383 (0:ℝ)) .start).1.currentPhase
      = CompositionPhase.start ∧
    (ServicesEngine.play initialState (fun _ _ => 0) (List.replicate 383 (0:ℝ)) .start).1.loopActive
      = true ∧
    (ServicesEngine.play initialState (fun _ _ => 0) (List.replicate 383 (0:ℝ)) .start).1.currentPhase
      ≠ initialState.currentPhase ∧
    (LocalEngine.play initialState (fun _ _ => 0) (List.replicate 383 (0:ℝ)) .start).1.currentPhase
      = CompositionPhase.start ∧
    (LocalEngine.play initialState (fun _ _ => 0) (List.replicate 383 (0:ℝ)) .start).1.loopActive
      = true := by
  refine ⟨?_, ?_, ?_, ?_, ?_, ?_⟩
  · rw [List.length_replicate]; norm_num
  · simp [ServicesEngine.play, ServicesEngine.stop]
  · simp [ServicesEngine.play, ServicesEngine.stop]
  · simp [ServicesEngine.play, ServicesEngine.stop, initialState]
  · simp [LocalEngine.play, LocalEngine.stop]
  · simp [LocalEngine.play, LocalEngine.stop]

/-- Claim C7 (amended): `play()` performs no vector validation at all: for a
vector of any width (in this real-number model NaN is not representable) it
proceeds identically — internal stop, phase set and notified, four melodies
generated from the (possibly short or empty) slices, tempo set, loop
started.  It never fails fast and the malformed path mutates the transport
state exactly like the valid path. -/
theorem claim_C7 (s : EngineState) (snd : SoundState) (v : List ℝ)
    (phase : CompositionPhase) :
    (ServicesEngine.play s snd v phase).1.currentPhase = phase ∧
    (ServicesEngine.play s snd v phase).1.loopActive = true ∧
    (ServicesEngine.play s snd v phase).1.currentMelodies.length = 4 ∧
    (ServicesEngine.play s snd v phase).1.bpm = deriveTempo v ∧
    (LocalEngine.play s snd v phase).1.currentPhase = phase ∧
    (LocalEngine.play s snd v phase).1.loopActive = true ∧
    (LocalEngine.play s snd v phase).1.currentMelodies.length = 4 ∧
    (LocalEngine.play s snd v phase).1.bpm = deriveTempo v := by
  refine ⟨?_, ?_, ?_, ?_, ?_, ?_, ?_, ?_⟩ <;>
    simp [ServicesEngine.play, ServicesEngine.stop, LocalEngine.play, LocalEngine.stop]

/-- Claim C8: if 1–3 of the 4 voice sample loads fail, `load()` still
resolves (it is total in the model: every per-voice promise resolves on
error too), the failed voices' readiness flags are false, and after a
subsequent `play()` the step-0 tick of the loop triggers sound on all four
voices, routing each loaded voice to its sampler at full note velocity and
each failed voice to its fallback synthesizer at velocity × 0.4
(`src/services/musicEngine.ts` variant, which claim C8 cites). -/
theorem claim_C8 (s : EngineState) (snd : SoundState) (vector : List ℝ)
    (phase : CompositionPhase) (outcomes : Voice → Bool)
    (hfail1 : 1 ≤ (voicesList.filter (fun vc => !(outcomes vc))).length)
    (hfail3 : (voicesList.filter (fun vc => !(outcomes vc))).length ≤ 3) :
    (load s outcomes).loadedStates = outcomes ∧
    (∀ vc, outcomes vc = false → (load s outcomes).loadedStates vc = false) ∧
    (∀ i vc, (i, vc) ∈ [((0:ℕ), Voice.bass), (1, .tenor), (2, .alto), (3, .soprano)] →
      ServicesEngine.tickVoiceActions
          (ServicesEngine.play (load s outcomes) snd vector phase).1 0 i vc ≠ [] ∧
      ∃ note,
        ServicesEngine.tickVoiceActions
            (ServicesEngine.play (load s outcomes) snd vector phase).1 0 i vc =
          (if outcomes vc = true then
            [AudioAction.trigger vc .sampler note (ServicesEngine.durations.getD i "")
              (((ServicesEngine.play (load s outcomes) snd vector
                  phase).1.currentMelodies.getD i []).getD 0 default).velocity]
          else
            [AudioAction.trigger vc .fallback note (ServicesEngine.durations.getD i "")
              ((((ServicesEngine.play (load s outcomes) snd vector
                  phase).1.currentMelodies.getD i []).getD 0 default).velocity * 0.4)])) := by
  have hsc : (ServicesEngine.play (load s outcomes) snd vector phase).1.samplersCreated
      = true := by
    simp [ServicesEngine.play, ServicesEngine.stop, load]
  have hls : ∀ vc, (ServicesEngine.play (load s outcomes) snd vector
      phase).1.loadedStates vc = outcomes vc := by
    intro vc
    simp [ServicesEngine.play, ServicesEngine.stop, load]
  refine ⟨rfl, fun vc h => by simp [load, h], ?_⟩
  intro i vc hmem
  have hmem' : (i, vc) = ((0:ℕ), Voice.bass) ∨ (i, vc) = (1, Voice.tenor) ∨
      (i, vc) = (2, Voice.alto) ∨ (i, vc) = (3, Voice.soprano) := by
    simpa using hmem
  rcases hmem' with h | h | h | h <;>
    (injection h with h1 h2; subst h1; subst h2;
     rw [ServicesEngine.tickVoiceActions_step0 _ _ _ hsc];
     dsimp only;
     simp only [ServicesEngine.play, ServicesEngine.stop, List.getD_cons_zero,
       List.getD_cons_succ];
     rw [svcMelody_length, Nat.zero_mod];
     simp only [load];
     exact ⟨by split <;> simp, ⟨_, rfl⟩⟩)

/-- Witness for C8: only the bass sample load fails, on the all-zeros
vector. -/
theorem claim_C8_witness :
    1 ≤ (voicesList.filter (fun vc => !((fun vc => match vc with | Voice.bass => false | _ => true) vc))).length ∧
    (voicesList.filter (fun vc => !((fun vc => match vc with | Voice.bass => false | _ => true) vc))).length ≤ 3 ∧
    ((load initialState (fun vc => match vc with | Voice.bass => false | _ => true)).loadedStates = (fun vc => match vc with | Voice.bass => false | _ => true) ∧
    (∀ vc, (fun vc => match vc with | Voice.bass => false | _ => true) vc = false → (load initialState (fun vc => match vc with | Voice.bass => false | _ => true)).loadedStates vc = false) ∧
    (∀ i vc, (i, vc) ∈ [((0:ℕ), Voice.bass), (1, .tenor), (2, .alto), (3, .soprano)] →
      ServicesEngine.tickVoiceActions (ServicesEngine.play (load initialState (fun vc => match vc with | Voice.bass => false | _ => true)) (fun _ _ => 0) (List.replicate 384 (0:ℝ)) CompositionPhase.start).1 0 i vc ≠ [] ∧
      ∃ note,
        ServicesEngine.tickVoiceActions (ServicesEngine.play (load initialState (fun vc => match vc with | Voice.bass => false | _ => true)) (fun _ _ => 0) (List.replicate 384 (0:ℝ)) CompositionPhase.start).1 0 i vc =
          (if (fun vc => match vc with | Voice.bass => false | _ => true) vc = true then
            [AudioAction.trigger vc .sampler note (ServicesEngine.durations.getD i "")
              (((ServicesEngine.play (load initialState (fun vc => match vc with | Voice.bass => false | _ => true)) (fun _ _ => 0) (List.replicate 384 (0:ℝ)) CompositionPhase.start).1.currentMelodies.getD i []).getD 0 default).velocity]
          else
            [AudioAction.trigger vc .fallback note (ServicesEngine.durations.getD i "")
              ((((ServicesEngine.play (load initialState (fun vc => match vc with | Voice.bass => false | _ => true)) (fun _ _ => 0) (List.replicate 384 (0:ℝ)) CompositionPhase.start).1.currentMelodies.getD i []).getD 0 default).velocity * 0.4)]))) :=
  ⟨by decide, by decide,
    claim_C8 initialState (fun _ _ => 0) (List.replicate 384 (0:ℝ))
      CompositionPhase.start (fun vc => match vc with | Voice.bass => false | _ => true) (by decide) (by decide)⟩

end GapSounds
